import Mathlib

/-!
Shallow embedding of the `ezdxf` audit module (`src/ezdxf/audit/auditor.py`):
a post-load consistency auditor that walks a parsed DXF document and collects
diagnostic records.  Entities, tables and the document are modelled as plain
data; the auditor's mutable state (`errors` list and `undefined_targets` set)
is threaded explicitly.  External collaborators that are not part of the
audited source (the `is_pointer_code` predicate, the layer-name validator,
table audit routines and `DXFEntity.audit`) are either parameters of the
definitions or modelled from the specification, as noted in doc comments.
-/

namespace Audit

/-- Python `str.lower()` restricted to the ASCII mapping used by
`Char.toLower` (the values compared in the auditor are ASCII). -/
def strLower (s : String) : String := String.mk (s.data.map Char.toLower)

/-- Lexicographic comparison of character lists by code point, as Python
compares strings. -/
def lexLt : List Char → List Char → Bool
  | [], [] => false
  | [], _ :: _ => true
  | _ :: _, [] => false
  | a :: as, b :: bs =>
    if a.val < b.val then true
    else if b.val < a.val then false
    else lexLt as bs

/-- Python string `<` (strict lexicographic order on code points), used for
the `dxfversion > 'AC1009'` gate. -/
def pyStrLt (a b : String) : Bool := lexLt a.data b.data

/-- The closed set of diagnostic codes used by the auditor.  The numeric
constants live in `ezdxf.lldxf.const.Error`, which is not under `src/`; the
spec (§7) fixes the closed set of names, so the codes are modelled as an
inductive enumeration. -/
inductive Error where
  | MISSING_REQUIRED_ROOT_DICT_ENTRY
  | UNDEFINED_LINETYPE
  | UNDEFINED_TEXT_STYLE
  | UNDEFINED_DIMENSION_STYLE
  | INVALID_LAYER_NAME
  | INVALID_COLOR_INDEX
  | INVALID_OWNER_HANDLE
  | POINTER_TARGET_NOT_EXISTS
deriving DecidableEq

/-- One raw DXF tag: a group code and a string value. -/
structure Tag where
  code : Nat
  value : String
deriving DecidableEq

/-- An entity of the document graph.  Entities are polymorphic over a
capability set: `supports_dxf_attrib(name)` is modelled by the corresponding
field being `some _`; reading `entity.dxf.name` is unwrapping it.  `tags` is
the raw tag sequence used for pointer extraction. -/
structure Entity where
  handle : String
  dxftype : String
  linetype : Option String
  style : Option String
  dimstyle : Option String
  layer : Option String
  color : Option Int
  owner : Option String
  tags : List Tag
deriving DecidableEq

/-- `ErrorEntry`: one immutable diagnostic record (code, message, optional
reference to the offending entity, optional auxiliary data). -/
structure ErrorEntry where
  code : Error
  message : String
  entity : Option Entity
  data : Option String
deriving DecidableEq

/-- The auditor's mutable state: the ordered `errors` list and the
`undefined_targets` deduplication set (modelled as a list queried only by
membership). -/
structure AState where
  errors : List ErrorEntry
  undefined_targets : List String
deriving DecidableEq

/-- `Auditor.reset`: clears the record list and the deduplication set. -/
def reset (_st : AState) : AState := { errors := [], undefined_targets := [] }

/-- `Auditor.add_error`: appends a new `ErrorEntry` to the sink. -/
def add_error (st : AState) (code : Error) (message : String)
    (dxf_entity : Option Entity) (data : Option String) : AState :=
  { errors := st.errors ++ [⟨code, message, dxf_entity, data⟩],
    undefined_targets := st.undefined_targets }

/-- The document, read-only from the auditor's perspective.  `rootdict` is
the set of names present in the root dictionary and `rootdict_entity` the
dictionary object itself (referenced by root-dict diagnostics).  `tables`
maps each *present* table name to the list of records its external
`audit(auditor)` routine appends to the sink — modelled from the spec
(§4.2 step 3): tables are collaborators the auditor does not inspect, it
only hands them the sink to append findings to.  `entitydb` is the
handle → entity database in traversal order. -/
structure Drawing where
  dxfversion : String
  rootdict_entity : Entity
  rootdict : List String
  tables : List (String × List ErrorEntry)
  linetypes : List String
  styles : List String
  dimstyles : List String
  entitydb : List (String × Entity)
deriving DecidableEq

/-- The handles present in the entity database (`drawing.entitydb` keys). -/
def entitydb_keys (d : Drawing) : List String := d.entitydb.map Prod.fst

/-- `get_pointers(tags)`: the values of all pointer-valued tags, in order.
`is_pointer_code` lives in `ezdxf.lldxf.types`, which is not under `src/`;
per the spec a tag is pointer-valued based on its type code alone, so the
predicate is a parameter. -/
def get_pointers (is_pointer_code : Nat → Bool) (tags : List Tag) : List String :=
  (tags.filter fun t => is_pointer_code t.code).map Tag.value

/-- `Auditor.check_if_linetype_exists`: skip if the entity does not support
`linetype` or the value is `bylayer`/`byblock` case-insensitively; otherwise
report `UNDEFINED_LINETYPE` when the name is not in the linetype table. -/
def check_if_linetype_exists (d : Drawing) (st : AState) (entity : Entity) : AState :=
  match entity.linetype with
  | none => st
  | some linetype =>
    if strLower linetype ∈ ["bylayer", "byblock"] then st
    else if linetype ∈ d.linetypes then st
    else add_error st Error.UNDEFINED_LINETYPE
      ("Undefined linetype: " ++ linetype) (some entity) none

/-- `Auditor.check_if_text_style_exists`: report `UNDEFINED_TEXT_STYLE` when
the entity's `style` is not in the styles table.  The message text is the
source's literal `'Undefined dimstyle: '` prefix. -/
def check_if_text_style_exists (d : Drawing) (st : AState) (entity : Entity) : AState :=
  match entity.style with
  | none => st
  | some style =>
    if style ∈ d.styles then st
    else add_error st Error.UNDEFINED_TEXT_STYLE
      ("Undefined dimstyle: " ++ style) (some entity) none

/-- `Auditor.check_if_dimension_style_exists`: report
`UNDEFINED_DIMENSION_STYLE` when the entity's `dimstyle` is not in the
dimstyles table. -/
def check_if_dimension_style_exists (d : Drawing) (st : AState) (entity : Entity) : AState :=
  match entity.dimstyle with
  | none => st
  | some dimstyle =>
    if dimstyle ∈ d.dimstyles then st
    else add_error st Error.UNDEFINED_DIMENSION_STYLE
      ("Undefined dimstyle: " ++ dimstyle) (some entity) none

/-- `Auditor.check_for_valid_layer_name`: report `INVALID_LAYER_NAME` when
the layer name fails the external validator `is_valid_layer_name`
(`ezdxf.lldxf.validator`, not under `src/`, hence a parameter). -/
def check_for_valid_layer_name (is_valid_layer_name : String → Bool)
    (st : AState) (entity : Entity) : AState :=
  match entity.layer with
  | none => st
  | some name =>
    if is_valid_layer_name name then st
    else add_error st Error.INVALID_LAYER_NAME
      ("Invalid layer name: " ++ name) (some entity) none

/-- `Auditor.check_for_valid_color_index`: report `INVALID_COLOR_INDEX` when
`color < 0 or color > 256`. -/
def check_for_valid_color_index (st : AState) (entity : Entity) : AState :=
  match entity.color with
  | none => st
  | some color =>
    if color < 0 ∨ color > 256 then
      add_error st Error.INVALID_COLOR_INDEX
        ("Invalid color index: " ++ toString color) (some entity) none
    else st

/-- `Auditor.check_for_existing_owner`: report `INVALID_OWNER_HANDLE` when
the entity's owner handle is not a key of the entity database. -/
def check_for_existing_owner (d : Drawing) (st : AState) (entity : Entity) : AState :=
  match entity.owner with
  | none => st
  | some owner_handle =>
    if owner_handle ∈ entitydb_keys d then st
    else add_error st Error.INVALID_OWNER_HANDLE
      ("Invalid owner handle: #" ++ owner_handle) (some entity) none

/-- The message built for a missing pointer target. -/
def ptr_message (t : String) : String := "Pointer target does not exist: #" ++ t

/-- One iteration of the loop body of `Auditor.check_pointer_target_exists`
for a single pointer value: skip resolvable targets, skip the unset sentinel
`"0"` unless `invalid_zero`, skip already-reported targets; otherwise append
the diagnostic and mark the target as reported. -/
def process_pointer (d : Drawing) (invalid_zero : Bool) (entity : Entity)
    (st : AState) (target_pointer : String) : AState :=
  if target_pointer ∈ entitydb_keys d then st
  else if target_pointer = "0" ∧ invalid_zero = false then st
  else if target_pointer ∈ st.undefined_targets then st
  else
    { errors := st.errors ++
        [⟨Error.POINTER_TARGET_NOT_EXISTS, ptr_message target_pointer,
          some entity, none⟩],
      undefined_targets := target_pointer :: st.undefined_targets }

/-- `Auditor.check_pointer_target_exists`: process every pointer value
extracted from the entity's tags, in order. -/
def check_pointer_target_exists (is_pointer_code : Nat → Bool) (d : Drawing)
    (invalid_zero : Bool) (st : AState) (entity : Entity) : AState :=
  (get_pointers is_pointer_code entity.tags).foldl
    (process_pointer d invalid_zero entity) st

/-- The `POINTER_TARGET_NOT_EXISTS` diagnostics recorded for a given target
handle `t`, identified by code and by the target named in the message. -/
def diags_for_target (t : String) (errors : List ErrorEntry) : List ErrorEntry :=
  errors.filter fun r =>
    r.code == Error.POINTER_TARGET_NOT_EXISTS && r.message == ptr_message t

/-- An entity with no optional attribute set and no tags. -/
def blank_ent (h ty : String) : Entity :=
  ⟨h, ty, none, none, none, none, none, none, []⟩

/-- Concrete entity carrying only a color. -/
def ent_color (c : Int) : Entity := { blank_ent "E1" "LINE" with color := some c }

/-- Concrete entity carrying only a linetype. -/
def ent_linetype (lt : String) : Entity :=
  { blank_ent "E2" "LINE" with linetype := some lt }

/-- Concrete entity carrying only a text style. -/
def ent_style (s : String) : Entity :=
  { blank_ent "E3" "TEXT" with style := some s }

/-- Concrete root dictionary object. -/
def root_ent : Entity := blank_ent "C" "DICTIONARY"

/-- Concrete document with empty tables and empty database. -/
def d_empty : Drawing := ⟨"AC1009", root_ent, [], [], [], [], [], []⟩

/-- The empty auditor state (as after `reset`). -/
def st_empty : AState := ⟨[], []⟩

/-- A concrete pointer-code predicate: exactly group code 330. -/
def ipc330 : Nat → Bool := fun c => c == 330

/-- An entity carrying two pointer tags to two distinct missing targets. -/
def ent_two_ptrs : Entity :=
  { blank_ent "E4" "LINE" with tags := [⟨330, "A"⟩, ⟨330, "B"⟩] }

/-- A Python generator object over diagnostic records, modelled by the list
of records a full iteration still yields.  `Auditor.filter_errors` returns
the generator expression
`(error for error in self.errors if error.code == code)`: fully iterating
it yields the matching records and leaves the generator exhausted. -/
structure PyGen where
  items : List ErrorEntry
deriving DecidableEq

/-- Fully iterating a generator: the yielded records, and the exhausted
generator left behind. -/
def PyGen.iterate (g : PyGen) : List ErrorEntry × PyGen := (g.items, ⟨[]⟩)

/-- `Auditor.filter_errors`: the generator over records whose code matches. -/
def filter_errors (errors : List ErrorEntry) (code : Error) : PyGen :=
  ⟨errors.filter fun error => error.code == code⟩

/-- Concrete diagnostic record used by the filter counterexample. -/
def err1 : ErrorEntry :=
  ⟨Error.UNDEFINED_LINETYPE, "Undefined linetype: X", none, none⟩

/-- `REQUIRED_ROOT_DICT_ENTRIES`: the fixed mandatory root-dict names. -/
def REQUIRED_ROOT_DICT_ENTRIES : List String :=
  ["ACAD_GROUP", "ACAD_PLOTSTYLENAME"]

/-- `Auditor.check_root_dict`: one `MISSING_REQUIRED_ROOT_DICT_ENTRY`
diagnostic, referencing the root dictionary, per absent mandatory name. -/
def check_root_dict (d : Drawing) (st : AState) : AState :=
  REQUIRED_ROOT_DICT_ENTRIES.foldl
    (fun st name =>
      if name ∈ d.rootdict then st
      else add_error st Error.MISSING_REQUIRED_ROOT_DICT_ENTRY
        ("Missing root dict entry: " ++ name) (some d.rootdict_entity) none)
    st

/-- The inner `check_table` of `Auditor.check_table_entries`: if the named
table is present, invoke its external `audit(self)` routine — modelled as
appending that table's findings to the sink. -/
def check_table (d : Drawing) (st : AState) (name : String) : AState :=
  match d.tables.lookup name with
  | none => st
  | some findings => { st with errors := st.errors ++ findings }

/-- `Auditor.check_table_entries`: audit the fixed list of tables, plus
`block_records` for modern-format documents. -/
def check_table_entries (d : Drawing) (st : AState) : AState :=
  let st := ["layers", "linetypes", "styles", "dimstyles", "ucs", "appids",
    "views"].foldl (check_table d) st
  if pyStrLt "AC1009" d.dxfversion then check_table d st "block_records"
  else st

/-- Modelled from the spec: `DXFEntity.audit` is not under `src/`; per §2
and §4.2 step 4 the database walk applies the full Entity Rule Set to each
entity, so the per-entity audit applies the seven rules of §4.3 in the
order of that table, the pointer rule with its default
`invalid_zero = False`. -/
def entity_audit (is_pointer_code : Nat → Bool)
    (is_valid_layer_name : String → Bool) (d : Drawing) (st : AState)
    (entity : Entity) : AState :=
  let st := check_if_linetype_exists d st entity
  let st := check_if_text_style_exists d st entity
  let st := check_if_dimension_style_exists d st entity
  let st := check_for_valid_layer_name is_valid_layer_name st entity
  let st := check_for_valid_color_index st entity
  let st := check_for_existing_owner d st entity
  check_pointer_target_exists is_pointer_code d false st entity

/-- `Auditor.check_database_entities`: walk every handle of the entity
database in traversal order and audit the resolved entity. -/
def check_database_entities (is_pointer_code : Nat → Bool)
    (is_valid_layer_name : String → Bool) (d : Drawing) (st : AState) : AState :=
  d.entitydb.foldl
    (fun st p => entity_audit is_pointer_code is_valid_layer_name d st p.2) st

/-- `Auditor.run`: reset the sink, then (modern format only) check the root
dictionary, then the tables, then every database entity. -/
def run (is_pointer_code : Nat → Bool) (is_valid_layer_name : String → Bool)
    (d : Drawing) (st : AState) : AState :=
  let st := reset st
  let st := if pyStrLt "AC1009" d.dxfversion then check_root_dict d st else st
  let st := check_table_entries d st
  check_database_entities is_pointer_code is_valid_layer_name d st

/-- Python `'{:4d}'.format(n)`: decimal rendering right-aligned to width 4. -/
def pad4 (n : Nat) : String :=
  let s := toString n
  String.mk (List.replicate (4 - s.length) ' ') ++ s

/-- Rendering of a diagnostic code in the report.  The numeric enum values
of `ezdxf.lldxf.const.Error` are not under `src/`; the symbolic name stands
in for the interpolated code value. -/
def code_str : Error → String
  | Error.MISSING_REQUIRED_ROOT_DICT_ENTRY => "MISSING_REQUIRED_ROOT_DICT_ENTRY"
  | Error.UNDEFINED_LINETYPE => "UNDEFINED_LINETYPE"
  | Error.UNDEFINED_TEXT_STYLE => "UNDEFINED_TEXT_STYLE"
  | Error.UNDEFINED_DIMENSION_STYLE => "UNDEFINED_DIMENSION_STYLE"
  | Error.INVALID_LAYER_NAME => "INVALID_LAYER_NAME"
  | Error.INVALID_COLOR_INDEX => "INVALID_COLOR_INDEX"
  | Error.INVALID_OWNER_HANDLE => "INVALID_OWNER_HANDLE"
  | Error.POINTER_TARGET_NOT_EXISTS => "POINTER_TARGET_NOT_EXISTS"

/-- The inner `entity_str` of `Auditor.print_report`: one numbered line per
record, with the offending entity's type and handle when present. -/
def entity_str (count : Nat) (code : Error) (entity : Option Entity) : String :=
  match entity with
  | some e => pad4 count ++ ". Issue code [" ++ code_str code
      ++ "] in DXF entity " ++ e.dxftype ++ ", handle: #" ++ e.handle
  | none => pad4 count ++ ". Issue code [" ++ code_str code ++ "]"

/-- `Auditor.print_report`: the full text written to the stream — a single
no-issues line for an empty sink, otherwise a count header followed by a
numbered line and an indented message per record in insertion order. -/
def print_report (errors : List ErrorEntry) : String :=
  if errors.length = 0 then "No issues found.\n\n"
  else toString errors.length ++ " issues found.\n\n"
    ++ String.join (errors.enum.map fun p =>
        entity_str (p.1 + 1) p.2.code p.2.entity ++ "\n"
          ++ "   " ++ p.2.message ++ "\n\n")

/-- The `MISSING_REQUIRED_ROOT_DICT_ENTRY` diagnostics of a sink. -/
def root_dict_diags (errors : List ErrorEntry) : List ErrorEntry :=
  errors.filter fun r => r.code == Error.MISSING_REQUIRED_ROOT_DICT_ENTRY

/-- Legacy document whose root dict lacks every mandatory entry. -/
def d_legacy_bare : Drawing := ⟨"AC1009", root_ent, [], [], [], [], [], []⟩

/-- Modern document whose root dict has `ACAD_PLOTSTYLENAME` only. -/
def d_modern_noGroup : Drawing :=
  ⟨"AC1015", root_ent, ["ACAD_PLOTSTYLENAME"], [], [], [], [], []⟩

/-- The cleanliness of one entity: every rule of the Entity Rule Set finds
nothing to report on it. -/
def entity_clean (ipc : Nat → Bool) (ivln : String → Bool) (d : Drawing)
    (e : Entity) : Prop :=
  (∀ lt, e.linetype = some lt →
    strLower lt ∈ ["bylayer", "byblock"] ∨ lt ∈ d.linetypes)
  ∧ (∀ s, e.style = some s → s ∈ d.styles)
  ∧ (∀ ds, e.dimstyle = some ds → ds ∈ d.dimstyles)
  ∧ (∀ nm, e.layer = some nm → ivln nm = true)
  ∧ (∀ c, e.color = some c → ¬(c < 0 ∨ c > 256))
  ∧ (∀ ow, e.owner = some ow → ow ∈ entitydb_keys d)
  ∧ (∀ t ∈ get_pointers ipc e.tags, t ∈ entitydb_keys d ∨ t = "0")

/-- Zero structural violations: the root dict is complete when the format is
modern, every present table audit reports nothing, and every database
entity is clean. -/
def no_violations (ipc : Nat → Bool) (ivln : String → Bool) (d : Drawing) :
    Prop :=
  (pyStrLt "AC1009" d.dxfversion = true →
    ∀ name ∈ REQUIRED_ROOT_DICT_ENTRIES, name ∈ d.rootdict)
  ∧ (∀ name findings, d.tables.lookup name = some findings → findings = [])
  ∧ (∀ p ∈ d.entitydb, entity_clean ipc ivln d p.2)

/-- An entity with a single pointer tag (group code 330) to `tgt`. -/
def ent_ptr (h : String) (tgt : String) : Entity :=
  { blank_ent h "LINE" with tags := [⟨330, tgt⟩] }

/-- A document whose two entities both point at the absent handle `DEAD`. -/
def d_dangling : Drawing :=
  ⟨"AC1009", root_ent, [], [], [], [], [],
    [("10", ent_ptr "10" "DEAD"), ("11", ent_ptr "11" "DEAD")]⟩

theorem ptr_message_inj {a b : String} (h : ptr_message a = ptr_message b) :
    a = b := by
  cases a with
  | mk la =>
    cases b with
    | mk lb =>
      have h3 : ("Pointer target does not exist: #".data ++ la)
          = ("Pointer target does not exist: #".data ++ lb) :=
        congrArg String.data h
      exact congrArg String.mk (List.append_cancel_left h3)

/-- Processing a pointer value different from `t` neither changes the
diagnostics recorded for target `t` nor whether `t` is marked reported. -/
theorem process_pointer_ne_target (d : Drawing) (iz : Bool) (e : Entity)
    (st : AState) (tp t : String) (hne : tp ≠ t) :
    diags_for_target t (process_pointer d iz e st tp).errors
        = diags_for_target t st.errors
    ∧ ((t ∈ (process_pointer d iz e st tp).undefined_targets) ↔
        t ∈ st.undefined_targets) := by
  have hmsg : ((ptr_message tp == ptr_message t) = false) :=
    beq_eq_false_iff_ne.mpr fun h => hne (ptr_message_inj h)
  unfold process_pointer
  split
  · exact ⟨rfl, Iff.rfl⟩
  · split
    · exact ⟨rfl, Iff.rfl⟩
    · split
      · exact ⟨rfl, Iff.rfl⟩
      · refine ⟨?_, ?_⟩
        · unfold diags_for_target
          rw [List.filter_append]
          simp [hmsg]
        · simp only [List.mem_cons]
          constructor
          · intro h
            rcases h with h | h
            · exact absurd h.symm hne
            · exact h
          · intro h
            exact Or.inr h

/-- Processing the unset sentinel `"0"` under default settings is a no-op. -/
theorem process_pointer_zero (d : Drawing) (e : Entity) (st : AState) :
    process_pointer d false e st "0" = st := by
  unfold process_pointer
  split
  · rfl
  · split
    · rfl
    · exfalso
      apply (by assumption : ¬(("0" : String) = "0" ∧ false = false))
      exact ⟨rfl, rfl⟩

/-- C5: under default settings (`invalid_zero = False`), a pointer value
equal to the unset sentinel `"0"` never produces a
`POINTER_TARGET_NOT_EXISTS` diagnostic: for every entity, document and
prior state, the pointer-target check adds no diagnostic naming target
`"0"`. -/
theorem zero_pointer_never_reported (is_pointer_code : Nat → Bool)
    (d : Drawing) (st : AState) (entity : Entity) :
    diags_for_target "0"
        (check_pointer_target_exists is_pointer_code d false st entity).errors
      = diags_for_target "0" st.errors := by
  unfold check_pointer_target_exists
  generalize get_pointers is_pointer_code entity.tags = ps
  induction ps generalizing st with
  | nil => rfl
  | cons tp ps ih =>
    rw [List.foldl_cons]
    by_cases h : tp = "0"
    · subst h
      rw [process_pointer_zero]
      exact ih st
    · rw [ih (process_pointer d false entity st tp)]
      exact (process_pointer_ne_target d false entity st tp "0" h).1

theorem append_singleton_ne (l : List ErrorEntry) (x : ErrorEntry) :
    l ++ [x] ≠ l := by
  intro h
  have := congrArg List.length h
  simp at this

/-- C6: for every entity supporting `color`, the color rule appends the
`INVALID_COLOR_INDEX` record exactly when the value lies outside the closed
range [0, 256], and leaves the sink unchanged exactly otherwise. -/
theorem color_index_range_exact (st : AState) (entity : Entity) (c : Int)
    (hc : entity.color = some c) :
    ((check_for_valid_color_index st entity).errors
        = st.errors ++ [⟨Error.INVALID_COLOR_INDEX,
            "Invalid color index: " ++ toString c, some entity, none⟩]
      ↔ (c < 0 ∨ c > 256))
    ∧ ((check_for_valid_color_index st entity).errors = st.errors
      ↔ ¬(c < 0 ∨ c > 256)) := by
  simp only [check_for_valid_color_index, hc]
  by_cases h : c < 0 ∨ c > 256
  · rw [if_pos h]
    exact ⟨iff_of_true rfl h,
      iff_of_false (fun heq => append_singleton_ne st.errors _ heq)
        (not_not_intro h)⟩
  · rw [if_neg h]
    exact ⟨iff_of_false (fun heq => append_singleton_ne st.errors _ heq.symm) h,
      iff_of_true rfl h⟩

theorem color_index_range_exact_witness :
    ((ent_color (-1)).color = some (-1)
      ∧ ((check_for_valid_color_index st_empty (ent_color (-1))).errors
          = st_empty.errors ++ [⟨Error.INVALID_COLOR_INDEX,
              "Invalid color index: " ++ toString (-1 : Int),
              some (ent_color (-1)), none⟩]
        ↔ ((-1 : Int) < 0 ∨ (-1 : Int) > 256)))
    ∧ ((ent_color 256).color = some 256
      ∧ ((check_for_valid_color_index st_empty (ent_color 256)).errors
          = st_empty.errors
        ↔ ¬((256 : Int) < 0 ∨ (256 : Int) > 256))) :=
  ⟨⟨rfl, (color_index_range_exact st_empty (ent_color (-1)) (-1) rfl).1⟩,
   ⟨rfl, (color_index_range_exact st_empty (ent_color 256) 256 rfl).2⟩⟩

/-- C7: for every entity supporting `linetype` whose value lowercases to
`bylayer` or `byblock`, the linetype rule is a no-op — no
`UNDEFINED_LINETYPE` diagnostic, whatever the linetype table contains. -/
theorem bylayer_byblock_never_undefined (d : Drawing) (st : AState)
    (entity : Entity) (lt : String) (hlt : entity.linetype = some lt)
    (hcase : strLower lt = "bylayer" ∨ strLower lt = "byblock") :
    check_if_linetype_exists d st entity = st := by
  simp only [check_if_linetype_exists, hlt]
  have hmem : strLower lt ∈ ["bylayer", "byblock"] := by
    rcases hcase with h | h
    · simp [h]
    · simp [h]
  rw [if_pos hmem]

theorem bylayer_byblock_never_undefined_witness :
    (ent_linetype "BYLAYER").linetype = some "BYLAYER"
    ∧ (strLower "BYLAYER" = "bylayer" ∨ strLower "BYLAYER" = "byblock")
    ∧ check_if_linetype_exists d_empty st_empty (ent_linetype "BYLAYER")
        = st_empty :=
  ⟨rfl, Or.inl (by decide),
   bylayer_byblock_never_undefined d_empty st_empty (ent_linetype "BYLAYER")
     "BYLAYER" rfl (Or.inl (by decide))⟩

/-- C10: for every entity that fails the text-style existence rule, the
emitted record has code `UNDEFINED_TEXT_STYLE` but its message is the
string "Undefined dimstyle: " followed by the style name — the source's
literal message labels the value as a dimstyle. -/
theorem text_style_message_mislabeled (d : Drawing) (st : AState)
    (entity : Entity) (s : String) (hs : entity.style = some s)
    (hmiss : s ∉ d.styles) :
    (check_if_text_style_exists d st entity).errors
      = st.errors ++ [⟨Error.UNDEFINED_TEXT_STYLE, "Undefined dimstyle: " ++ s,
          some entity, none⟩] := by
  simp only [check_if_text_style_exists, hs]
  rw [if_neg hmiss]
  rfl

theorem text_style_message_mislabeled_witness :
    (ent_style "OpenSans").style = some "OpenSans"
    ∧ "OpenSans" ∉ d_empty.styles
    ∧ (check_if_text_style_exists d_empty st_empty (ent_style "OpenSans")).errors
        = st_empty.errors ++ [⟨Error.UNDEFINED_TEXT_STYLE,
            "Undefined dimstyle: " ++ "OpenSans", some (ent_style "OpenSans"),
            none⟩] :=
  ⟨rfl, by decide,
   text_style_message_mislabeled d_empty st_empty (ent_style "OpenSans")
     "OpenSans" rfl (by decide)⟩

theorem add_error_errors_length (st : AState) (code : Error) (message : String)
    (e : Option Entity) (dt : Option String) :
    (add_error st code message e dt).errors.length = st.errors.length + 1 := by
  simp [add_error]

theorem check_if_linetype_exists_le (d : Drawing) (st : AState) (e : Entity) :
    (check_if_linetype_exists d st e).errors.length ≤ st.errors.length + 1 := by
  unfold check_if_linetype_exists
  cases e.linetype with
  | none => exact Nat.le_succ _
  | some lt =>
    dsimp only
    split
    · exact Nat.le_succ _
    · split
      · exact Nat.le_succ _
      · simp [add_error]

theorem check_if_text_style_exists_le (d : Drawing) (st : AState) (e : Entity) :
    (check_if_text_style_exists d st e).errors.length ≤ st.errors.length + 1 := by
  unfold check_if_text_style_exists
  cases e.style with
  | none => exact Nat.le_succ _
  | some s =>
    dsimp only
    split
    · exact Nat.le_succ _
    · simp [add_error]

theorem check_if_dimension_style_exists_le (d : Drawing) (st : AState)
    (e : Entity) :
    (check_if_dimension_style_exists d st e).errors.length
      ≤ st.errors.length + 1 := by
  unfold check_if_dimension_style_exists
  cases e.dimstyle with
  | none => exact Nat.le_succ _
  | some s =>
    dsimp only
    split
    · exact Nat.le_succ _
    · simp [add_error]

theorem check_for_valid_layer_name_le (v : String → Bool) (st : AState)
    (e : Entity) :
    (check_for_valid_layer_name v st e).errors.length
      ≤ st.errors.length + 1 := by
  unfold check_for_valid_layer_name
  cases e.layer with
  | none => exact Nat.le_succ _
  | some nm =>
    dsimp only
    split
    · exact Nat.le_succ _
    · simp [add_error]

theorem check_for_valid_color_index_le (st : AState) (e : Entity) :
    (check_for_valid_color_index st e).errors.length
      ≤ st.errors.length + 1 := by
  unfold check_for_valid_color_index
  cases e.color with
  | none => exact Nat.le_succ _
  | some c =>
    dsimp only
    split
    · simp [add_error]
    · exact Nat.le_succ _

theorem check_for_existing_owner_le (d : Drawing) (st : AState) (e : Entity) :
    (check_for_existing_owner d st e).errors.length ≤ st.errors.length + 1 := by
  unfold check_for_existing_owner
  cases e.owner with
  | none => exact Nat.le_succ _
  | some ow =>
    dsimp only
    split
    · exact Nat.le_succ _
    · simp [add_error]

theorem process_pointer_le (d : Drawing) (iz : Bool) (e : Entity) (st : AState)
    (tp : String) :
    (process_pointer d iz e st tp).errors.length ≤ st.errors.length + 1 := by
  unfold process_pointer
  split
  · exact Nat.le_succ _
  · split
    · exact Nat.le_succ _
    · split
      · exact Nat.le_succ _
      · simp

theorem foldl_process_pointer_le (d : Drawing) (iz : Bool) (e : Entity) :
    ∀ (ps : List String) (st : AState),
      ((ps.foldl (process_pointer d iz e) st).errors.length
        ≤ st.errors.length + ps.length) := by
  intro ps
  induction ps with
  | nil => intro st; simp
  | cons tp ps ih =>
    intro st
    rw [List.foldl_cons]
    have h1 := process_pointer_le d iz e st tp
    have h2 := ih (process_pointer d iz e st tp)
    simp only [List.length_cons]
    omega

/-- C2 (amended): each of the six attribute rules appends at most one
diagnostic per entity; the pointer-target rule appends at most one
diagnostic per pointer-valued tag of the entity, which can exceed one per
entity. -/
theorem rule_emission_bounds (is_pointer_code : Nat → Bool)
    (is_valid_layer_name : String → Bool) (d : Drawing) (iz : Bool)
    (st : AState) (entity : Entity) :
    (check_if_linetype_exists d st entity).errors.length ≤ st.errors.length + 1
    ∧ (check_if_text_style_exists d st entity).errors.length
        ≤ st.errors.length + 1
    ∧ (check_if_dimension_style_exists d st entity).errors.length
        ≤ st.errors.length + 1
    ∧ (check_for_valid_layer_name is_valid_layer_name st entity).errors.length
        ≤ st.errors.length + 1
    ∧ (check_for_valid_color_index st entity).errors.length
        ≤ st.errors.length + 1
    ∧ (check_for_existing_owner d st entity).errors.length
        ≤ st.errors.length + 1
    ∧ (check_pointer_target_exists is_pointer_code d iz st entity).errors.length
        ≤ st.errors.length + (get_pointers is_pointer_code entity.tags).length :=
  ⟨check_if_linetype_exists_le d st entity,
   check_if_text_style_exists_le d st entity,
   check_if_dimension_style_exists_le d st entity,
   check_for_valid_layer_name_le is_valid_layer_name st entity,
   check_for_valid_color_index_le st entity,
   check_for_existing_owner_le d st entity,
   foldl_process_pointer_le d iz entity _ st⟩

/-- C2 counterexample: applying the pointer-target rule once, to one entity
whose two pointer tags reference the two distinct missing targets `A` and
`B`, appends two diagnostics to an empty sink — more than the one per
entity the claim allows. -/
theorem pointer_rule_two_diagnostics :
    (check_pointer_target_exists ipc330 d_empty false st_empty
        ent_two_ptrs).errors.length = 2
    ∧ ¬((check_pointer_target_exists ipc330 d_empty false st_empty
        ent_two_ptrs).errors.length ≤ st_empty.errors.length + 1) := by
  decide

/-- C4 counterexample: the object `filter_errors` returns is a one-shot
generator, not a restartable sequence — its first full iteration yields the
matching record, but iterating the same object a second time yields
nothing, contradicting the claimed restartability. -/
theorem filter_errors_not_restartable :
    ((filter_errors [err1] Error.UNDEFINED_LINETYPE).iterate.1 = [err1])
    ∧ ((filter_errors [err1]
        Error.UNDEFINED_LINETYPE).iterate.2.iterate.1 = [])
    ∧ ((filter_errors [err1] Error.UNDEFINED_LINETYPE).iterate.2.iterate.1
        ≠ (filter_errors [err1] Error.UNDEFINED_LINETYPE).iterate.1) := by
  decide

/-- C4 (amended): one full iteration of the generator returned by
`filter_errors` yields exactly the records whose code matches, in original
detection order (a code-preserving sublist of the sink, of length equal to
the number of occurrences of the code); but the generator is single-use —
iterating the same returned object a second time yields the empty
sequence.  Re-filtering requires a fresh `filter_errors` call. -/
theorem filter_errors_spec (errors : List ErrorEntry) (code : Error) :
    ((filter_errors errors code).iterate.1
        = errors.filter (fun error => error.code == code))
    ∧ (∀ r ∈ (filter_errors errors code).iterate.1, r.code = code)
    ∧ List.Sublist (filter_errors errors code).iterate.1 errors
    ∧ ((filter_errors errors code).iterate.1.length
        = errors.countP (fun error => error.code == code))
    ∧ (filter_errors errors code).iterate.2.iterate.1 = [] := by
  refine ⟨rfl, ?_, ?_, ?_, rfl⟩
  · intro r hr
    simp only [filter_errors, PyGen.iterate] at hr
    have h := List.of_mem_filter hr
    simpa using h
  · show List.Sublist (errors.filter fun error => error.code == code) errors
    exact List.filter_sublist _
  · simp [filter_errors, PyGen.iterate, List.countP_eq_length_filter]

/-- C8: `run` is deterministic and idempotent over an unchanged document:
its outcome is independent of the sink state it starts from (it begins by
resetting the sink), and a second `run` over the same document reproduces
the identical diagnostic sequence. -/
theorem run_deterministic_idempotent (is_pointer_code : Nat → Bool)
    (is_valid_layer_name : String → Bool) (d : Drawing) (a b : AState) :
    (run is_pointer_code is_valid_layer_name d a
        = run is_pointer_code is_valid_layer_name d b)
    ∧ (run is_pointer_code is_valid_layer_name d
          (run is_pointer_code is_valid_layer_name d a)
        = run is_pointer_code is_valid_layer_name d a)
    ∧ (run is_pointer_code is_valid_layer_name d a
        = run is_pointer_code is_valid_layer_name d (reset a)) :=
  ⟨rfl, rfl, rfl⟩

theorem filter_append_right_nil {α} (p : α → Bool) {l L : List α}
    (h : ∀ a ∈ L, p a = false) : (l ++ L).filter p = l.filter p := by
  rw [List.filter_append]
  have hnil : L.filter p = [] := by
    rw [List.filter_eq_nil_iff]
    intro a ha
    simp [h a ha]
  rw [hnil, List.append_nil]

theorem check_if_linetype_exists_shape (d : Drawing) (st : AState) (e : Entity) :
    ∃ L, check_if_linetype_exists d st e
        = { errors := st.errors ++ L, undefined_targets := st.undefined_targets }
      ∧ ∀ r ∈ L, r.code = Error.UNDEFINED_LINETYPE := by
  unfold check_if_linetype_exists
  cases e.linetype with
  | none => exact ⟨[], by simp, by simp⟩
  | some lt =>
    dsimp only
    split
    · exact ⟨[], by simp, by simp⟩
    · split
      · exact ⟨[], by simp, by simp⟩
      · exact ⟨[_], rfl, by simp⟩

theorem check_if_text_style_exists_shape (d : Drawing) (st : AState)
    (e : Entity) :
    ∃ L, check_if_text_style_exists d st e
        = { errors := st.errors ++ L, undefined_targets := st.undefined_targets }
      ∧ ∀ r ∈ L, r.code = Error.UNDEFINED_TEXT_STYLE := by
  unfold check_if_text_style_exists
  cases e.style with
  | none => exact ⟨[], by simp, by simp⟩
  | some s =>
    dsimp only
    split
    · exact ⟨[], by simp, by simp⟩
    · exact ⟨[_], rfl, by simp⟩

theorem check_if_dimension_style_exists_shape (d : Drawing) (st : AState)
    (e : Entity) :
    ∃ L, check_if_dimension_style_exists d st e
        = { errors := st.errors ++ L, undefined_targets := st.undefined_targets }
      ∧ ∀ r ∈ L, r.code = Error.UNDEFINED_DIMENSION_STYLE := by
  unfold check_if_dimension_style_exists
  cases e.dimstyle with
  | none => exact ⟨[], by simp, by simp⟩
  | some s =>
    dsimp only
    split
    · exact ⟨[], by simp, by simp⟩
    · exact ⟨[_], rfl, by simp⟩

theorem check_for_valid_layer_name_shape (v : String → Bool) (st : AState)
    (e : Entity) :
    ∃ L, check_for_valid_layer_name v st e
        = { errors := st.errors ++ L, undefined_targets := st.undefined_targets }
      ∧ ∀ r ∈ L, r.code = Error.INVALID_LAYER_NAME := by
  unfold check_for_valid_layer_name
  cases e.layer with
  | none => exact ⟨[], by simp, by simp⟩
  | some nm =>
    dsimp only
    split
    · exact ⟨[], by simp, by simp⟩
    · exact ⟨[_], rfl, by simp⟩

theorem check_for_valid_color_index_shape (st : AState) (e : Entity) :
    ∃ L, check_for_valid_color_index st e
        = { errors := st.errors ++ L, undefined_targets := st.undefined_targets }
      ∧ ∀ r ∈ L, r.code = Error.INVALID_COLOR_INDEX := by
  unfold check_for_valid_color_index
  cases e.color with
  | none => exact ⟨[], by simp, by simp⟩
  | some c =>
    dsimp only
    split
    · exact ⟨[_], rfl, by simp⟩
    · exact ⟨[], by simp, by simp⟩

theorem check_for_existing_owner_shape (d : Drawing) (st : AState)
    (e : Entity) :
    ∃ L, check_for_existing_owner d st e
        = { errors := st.errors ++ L, undefined_targets := st.undefined_targets }
      ∧ ∀ r ∈ L, r.code = Error.INVALID_OWNER_HANDLE := by
  unfold check_for_existing_owner
  cases e.owner with
  | none => exact ⟨[], by simp, by simp⟩
  | some ow =>
    dsimp only
    split
    · exact ⟨[], by simp, by simp⟩
    · exact ⟨[_], rfl, by simp⟩

theorem process_pointer_errors_shape (d : Drawing) (iz : Bool) (e : Entity)
    (st : AState) (tp : String) :
    ∃ L, (process_pointer d iz e st tp).errors = st.errors ++ L
      ∧ ∀ r ∈ L, r.code = Error.POINTER_TARGET_NOT_EXISTS := by
  unfold process_pointer
  split
  · exact ⟨[], by simp, by simp⟩
  · split
    · exact ⟨[], by simp, by simp⟩
    · split
      · exact ⟨[], by simp, by simp⟩
      · exact ⟨[_], rfl, by simp⟩

theorem foldl_process_pointer_errors_shape (d : Drawing) (iz : Bool)
    (e : Entity) :
    ∀ (ps : List String) (st : AState),
      ∃ L, (ps.foldl (process_pointer d iz e) st).errors = st.errors ++ L
        ∧ ∀ r ∈ L, r.code = Error.POINTER_TARGET_NOT_EXISTS := by
  intro ps
  induction ps with
  | nil => intro st; exact ⟨[], by simp, by simp⟩
  | cons tp ps ih =>
    intro st
    obtain ⟨L1, h1, c1⟩ := process_pointer_errors_shape d iz e st tp
    obtain ⟨L2, h2, c2⟩ := ih (process_pointer d iz e st tp)
    refine ⟨L1 ++ L2, ?_, ?_⟩
    · rw [List.foldl_cons, h2, h1, List.append_assoc]
    · intro r hr
      rcases List.mem_append.mp hr with h | h
      · exact c1 r h
      · exact c2 r h

/-- The per-entity audit only appends records, never touching earlier ones,
and none of its records carries the root-dict code. -/
theorem entity_audit_errors_shape (ipc : Nat → Bool) (ivln : String → Bool)
    (d : Drawing) (st : AState) (e : Entity) :
    ∃ L, (entity_audit ipc ivln d st e).errors = st.errors ++ L
      ∧ ∀ r ∈ L, r.code ≠ Error.MISSING_REQUIRED_ROOT_DICT_ENTRY := by
  unfold entity_audit
  dsimp only
  obtain ⟨L1, h1, c1⟩ := check_if_linetype_exists_shape d st e
  rw [h1]
  obtain ⟨L2, h2, c2⟩ := check_if_text_style_exists_shape d
    { errors := st.errors ++ L1, undefined_targets := st.undefined_targets } e
  rw [h2]
  obtain ⟨L3, h3, c3⟩ := check_if_dimension_style_exists_shape d _ e
  rw [h3]
  obtain ⟨L4, h4, c4⟩ := check_for_valid_layer_name_shape ivln _ e
  rw [h4]
  obtain ⟨L5, h5, c5⟩ := check_for_valid_color_index_shape _ e
  rw [h5]
  obtain ⟨L6, h6, c6⟩ := check_for_existing_owner_shape d _ e
  rw [h6]
  unfold check_pointer_target_exists
  obtain ⟨L7, h7, c7⟩ := foldl_process_pointer_errors_shape d false e
    (get_pointers ipc e.tags) _
  rw [h7]
  refine ⟨L1 ++ (L2 ++ (L3 ++ (L4 ++ (L5 ++ (L6 ++ L7))))), ?_, ?_⟩
  · simp [List.append_assoc]
  · intro r hr
    simp only [List.mem_append] at hr
    rcases hr with h | h | h | h | h | h | h
    · rw [c1 r h]; intro hk; cases hk
    · rw [c2 r h]; intro hk; cases hk
    · rw [c3 r h]; intro hk; cases hk
    · rw [c4 r h]; intro hk; cases hk
    · rw [c5 r h]; intro hk; cases hk
    · rw [c6 r h]; intro hk; cases hk
    · rw [c7 r h]; intro hk; cases hk

theorem root_dict_diags_append {L : List ErrorEntry} (l : List ErrorEntry)
    (h : ∀ r ∈ L, r.code ≠ Error.MISSING_REQUIRED_ROOT_DICT_ENTRY) :
    root_dict_diags (l ++ L) = root_dict_diags l :=
  filter_append_right_nil _ fun r hr => by simpa using h r hr

theorem check_database_entities_root_diags (ipc : Nat → Bool)
    (ivln : String → Bool) (d : Drawing) (st : AState) :
    root_dict_diags (check_database_entities ipc ivln d st).errors
      = root_dict_diags st.errors := by
  unfold check_database_entities
  generalize d.entitydb = l
  induction l generalizing st with
  | nil => rfl
  | cons p l ih =>
    rw [List.foldl_cons]
    rw [ih (entity_audit ipc ivln d st p.2)]
    obtain ⟨L, hL, hc⟩ := entity_audit_errors_shape ipc ivln d st p.2
    rw [hL]
    exact root_dict_diags_append st.errors hc

theorem check_table_root_diags (d : Drawing) (st : AState) (name : String)
    (htab : ∀ name findings, d.tables.lookup name = some findings →
      ∀ r ∈ findings, r.code ≠ Error.MISSING_REQUIRED_ROOT_DICT_ENTRY) :
    root_dict_diags (check_table d st name).errors
      = root_dict_diags st.errors := by
  unfold check_table
  cases hl : d.tables.lookup name with
  | none => rfl
  | some findings =>
    dsimp only
    exact root_dict_diags_append st.errors (htab name findings hl)

theorem check_table_entries_root_diags (d : Drawing) (st : AState)
    (htab : ∀ name findings, d.tables.lookup name = some findings →
      ∀ r ∈ findings, r.code ≠ Error.MISSING_REQUIRED_ROOT_DICT_ENTRY) :
    root_dict_diags (check_table_entries d st).errors
      = root_dict_diags st.errors := by
  unfold check_table_entries
  have hfold : ∀ (names : List String) (st : AState),
      root_dict_diags ((names.foldl (check_table d) st).errors)
        = root_dict_diags st.errors := by
    intro names
    induction names with
    | nil => intro st; rfl
    | cons nm names ih =>
      intro st
      rw [List.foldl_cons, ih (check_table d st nm),
        check_table_root_diags d st nm htab]
  dsimp only
  split
  · rw [check_table_root_diags d _ "block_records" htab, hfold]
  · exact hfold _ st

/-- C3: the root-registry check is gated on the modern format family.  For
every document whose tables report no root-dict diagnostics of their own:
a legacy-format document (`dxfversion ≤ 'AC1009'`) yields no
`MISSING_REQUIRED_ROOT_DICT_ENTRY` diagnostic whatever its root dict
contains, while a modern-format document missing `ACAD_GROUP` (with
`ACAD_PLOTSTYLENAME` present) yields exactly one, referencing the root
dictionary. -/
theorem root_dict_check_version_gated (ipc : Nat → Bool)
    (ivln : String → Bool) (d : Drawing) (a : AState)
    (htab : ∀ name findings, d.tables.lookup name = some findings →
      ∀ r ∈ findings, r.code ≠ Error.MISSING_REQUIRED_ROOT_DICT_ENTRY) :
    (pyStrLt "AC1009" d.dxfversion = false →
      root_dict_diags (run ipc ivln d a).errors = [])
    ∧ (pyStrLt "AC1009" d.dxfversion = true →
        "ACAD_GROUP" ∉ d.rootdict → "ACAD_PLOTSTYLENAME" ∈ d.rootdict →
        root_dict_diags (run ipc ivln d a).errors
          = [⟨Error.MISSING_REQUIRED_ROOT_DICT_ENTRY,
              "Missing root dict entry: " ++ "ACAD_GROUP",
              some d.rootdict_entity, none⟩]) := by
  constructor
  · intro hleg
    unfold run
    rw [hleg]
    dsimp only [Bool.false_eq_true, if_false]
    rw [check_database_entities_root_diags,
      check_table_entries_root_diags d _ htab]
    rfl
  · intro hmod hG hP
    unfold run
    rw [hmod]
    dsimp only [if_true]
    rw [check_database_entities_root_diags,
      check_table_entries_root_diags d _ htab]
    unfold check_root_dict REQUIRED_ROOT_DICT_ENTRIES
    rw [List.foldl_cons, List.foldl_cons, List.foldl_nil]
    rw [if_neg hG, if_pos hP]
    rfl

theorem root_dict_check_version_gated_witness :
    (pyStrLt "AC1009" d_legacy_bare.dxfversion = false
      ∧ root_dict_diags (run ipc330 (fun _ => true) d_legacy_bare st_empty).errors
          = [])
    ∧ (pyStrLt "AC1009" d_modern_noGroup.dxfversion = true
      ∧ ("ACAD_GROUP" ∉ d_modern_noGroup.rootdict)
      ∧ ("ACAD_PLOTSTYLENAME" ∈ d_modern_noGroup.rootdict)
      ∧ root_dict_diags (run ipc330 (fun _ => true) d_modern_noGroup st_empty).errors
          = [⟨Error.MISSING_REQUIRED_ROOT_DICT_ENTRY,
              "Missing root dict entry: " ++ "ACAD_GROUP",
              some d_modern_noGroup.rootdict_entity, none⟩]) :=
  ⟨⟨by decide,
    (root_dict_check_version_gated ipc330 (fun _ => true) d_legacy_bare st_empty
      (by intro name findings h; simp [d_legacy_bare, List.lookup] at h)).1
      (by decide)⟩,
   ⟨by decide, by decide, by decide,
    (root_dict_check_version_gated ipc330 (fun _ => true) d_modern_noGroup
      st_empty
      (by intro name findings h; simp [d_modern_noGroup, List.lookup] at h)).2
      (by decide) (by decide) (by decide)⟩⟩

theorem check_if_linetype_exists_noop (d : Drawing) (st : AState) (e : Entity)
    (h : ∀ lt, e.linetype = some lt →
      strLower lt ∈ ["bylayer", "byblock"] ∨ lt ∈ d.linetypes) :
    check_if_linetype_exists d st e = st := by
  unfold check_if_linetype_exists
  cases hl : e.linetype with
  | none => rfl
  | some lt =>
    dsimp only
    by_cases h1 : strLower lt ∈ ["bylayer", "byblock"]
    · rw [if_pos h1]
    · rcases h lt hl with hc | hc
      · exact absurd hc h1
      · rw [if_neg h1, if_pos hc]

theorem check_if_text_style_exists_noop (d : Drawing) (st : AState)
    (e : Entity) (h : ∀ s, e.style = some s → s ∈ d.styles) :
    check_if_text_style_exists d st e = st := by
  unfold check_if_text_style_exists
  cases hs : e.style with
  | none => rfl
  | some s =>
    dsimp only
    rw [if_pos (h s hs)]

theorem check_if_dimension_style_exists_noop (d : Drawing) (st : AState)
    (e : Entity) (h : ∀ ds, e.dimstyle = some ds → ds ∈ d.dimstyles) :
    check_if_dimension_style_exists d st e = st := by
  unfold check_if_dimension_style_exists
  cases hs : e.dimstyle with
  | none => rfl
  | some ds =>
    dsimp only
    rw [if_pos (h ds hs)]

theorem check_for_valid_layer_name_noop (v : String → Bool) (st : AState)
    (e : Entity) (h : ∀ nm, e.layer = some nm → v nm = true) :
    check_for_valid_layer_name v st e = st := by
  unfold check_for_valid_layer_name
  cases hs : e.layer with
  | none => rfl
  | some nm =>
    dsimp only
    rw [if_pos (h nm hs)]

theorem check_for_valid_color_index_noop (st : AState) (e : Entity)
    (h : ∀ c, e.color = some c → ¬(c < 0 ∨ c > 256)) :
    check_for_valid_color_index st e = st := by
  unfold check_for_valid_color_index
  cases hs : e.color with
  | none => rfl
  | some c =>
    dsimp only
    rw [if_neg (h c hs)]

theorem check_for_existing_owner_noop (d : Drawing) (st : AState) (e : Entity)
    (h : ∀ ow, e.owner = some ow → ow ∈ entitydb_keys d) :
    check_for_existing_owner d st e = st := by
  unfold check_for_existing_owner
  cases hs : e.owner with
  | none => rfl
  | some ow =>
    dsimp only
    rw [if_pos (h ow hs)]

theorem process_pointer_noop (d : Drawing) (e : Entity) (st : AState)
    (tp : String) (h : tp ∈ entitydb_keys d ∨ tp = "0") :
    process_pointer d false e st tp = st := by
  rcases h with h | h
  · unfold process_pointer
    rw [if_pos h]
  · subst h
    exact process_pointer_zero d e st

theorem check_pointer_target_exists_noop (ipc : Nat → Bool) (d : Drawing)
    (st : AState) (e : Entity)
    (h : ∀ t ∈ get_pointers ipc e.tags, t ∈ entitydb_keys d ∨ t = "0") :
    check_pointer_target_exists ipc d false st e = st := by
  unfold check_pointer_target_exists
  have haux : ∀ (ps : List String),
      (∀ t ∈ ps, t ∈ entitydb_keys d ∨ t = "0") → ∀ st : AState,
        ps.foldl (process_pointer d false e) st = st := by
    intro ps
    induction ps with
    | nil => intro _ st; rfl
    | cons tp ps ih =>
      intro hl st
      rw [List.foldl_cons, process_pointer_noop d e st tp (hl tp (by simp))]
      exact ih (fun t ht => hl t (by simp [ht])) st
  exact haux _ h st

theorem entity_audit_noop (ipc : Nat → Bool) (ivln : String → Bool)
    (d : Drawing) (st : AState) (e : Entity)
    (h : entity_clean ipc ivln d e) : entity_audit ipc ivln d st e = st := by
  obtain ⟨h1, h2, h3, h4, h5, h6, h7⟩ := h
  unfold entity_audit
  dsimp only
  rw [check_if_linetype_exists_noop d st e h1,
    check_if_text_style_exists_noop d st e h2,
    check_if_dimension_style_exists_noop d st e h3,
    check_for_valid_layer_name_noop ivln st e h4,
    check_for_valid_color_index_noop st e h5,
    check_for_existing_owner_noop d st e h6,
    check_pointer_target_exists_noop ipc d st e h7]

theorem check_database_entities_noop (ipc : Nat → Bool) (ivln : String → Bool)
    (d : Drawing) (st : AState)
    (h : ∀ p ∈ d.entitydb, entity_clean ipc ivln d p.2) :
    check_database_entities ipc ivln d st = st := by
  unfold check_database_entities
  have haux : ∀ (l : List (String × Entity)),
      (∀ p ∈ l, entity_clean ipc ivln d p.2) → ∀ st : AState,
        l.foldl (fun st p => entity_audit ipc ivln d st p.2) st = st := by
    intro l
    induction l with
    | nil => intro _ st; rfl
    | cons p l ih =>
      intro hl st
      rw [List.foldl_cons, entity_audit_noop ipc ivln d st p.2 (hl p (by simp))]
      exact ih (fun q hq => hl q (by simp [hq])) st
  exact haux d.entitydb h st

theorem check_table_noop (d : Drawing) (st : AState) (name : String)
    (htab : ∀ name findings, d.tables.lookup name = some findings →
      findings = []) :
    check_table d st name = st := by
  unfold check_table
  cases hl : d.tables.lookup name with
  | none => rfl
  | some findings =>
    dsimp only
    rw [htab name findings hl]
    simp

theorem check_table_entries_noop (d : Drawing) (st : AState)
    (htab : ∀ name findings, d.tables.lookup name = some findings →
      findings = []) :
    check_table_entries d st = st := by
  unfold check_table_entries
  have hfold : ∀ (names : List String) (st : AState),
      names.foldl (check_table d) st = st := by
    intro names
    induction names with
    | nil => intro st; rfl
    | cons nm names ih =>
      intro st
      rw [List.foldl_cons, check_table_noop d st nm htab]
      exact ih st
  dsimp only
  rw [hfold]
  split
  · exact check_table_noop d st "block_records" htab
  · rfl

theorem check_root_dict_noop (d : Drawing) (st : AState)
    (h : ∀ name ∈ REQUIRED_ROOT_DICT_ENTRIES, name ∈ d.rootdict) :
    check_root_dict d st = st := by
  unfold check_root_dict REQUIRED_ROOT_DICT_ENTRIES
  rw [List.foldl_cons, List.foldl_cons, List.foldl_nil]
  rw [if_pos (h "ACAD_GROUP" (by simp [REQUIRED_ROOT_DICT_ENTRIES])),
    if_pos (h "ACAD_PLOTSTYLENAME" (by simp [REQUIRED_ROOT_DICT_ENTRIES]))]

/-- C9: for every document with zero structural violations, `run` leaves
the sink empty, and rendering that empty sink writes the single no-issues
line and nothing else. -/
theorem no_violations_empty_report (ipc : Nat → Bool) (ivln : String → Bool)
    (d : Drawing) (a : AState) (h : no_violations ipc ivln d) :
    (run ipc ivln d a).errors = []
    ∧ print_report (run ipc ivln d a).errors = "No issues found.\n\n" := by
  obtain ⟨hroot, htab, hent⟩ := h
  have hrun : run ipc ivln d a = reset a := by
    unfold run
    dsimp only
    rw [check_database_entities_noop ipc ivln d _ hent]
    split
    · next hg =>
      rw [check_root_dict_noop d _ (hroot hg)]
      exact check_table_entries_noop d _ htab
    · exact check_table_entries_noop d _ htab
  rw [hrun]
  exact ⟨rfl, rfl⟩

theorem no_violations_empty_report_witness :
    no_violations ipc330 (fun _ => true) d_empty
    ∧ (run ipc330 (fun _ => true) d_empty st_empty).errors = []
    ∧ print_report (run ipc330 (fun _ => true) d_empty st_empty).errors
        = "No issues found.\n\n" := by
  have hnv : no_violations ipc330 (fun _ => true) d_empty := by
    refine ⟨?_, ?_, ?_⟩
    · intro hg
      exact absurd hg (by decide)
    · intro name findings hl
      simp [d_empty, List.lookup] at hl
    · intro p hp
      simp [d_empty] at hp
  exact ⟨hnv, no_violations_empty_report ipc330 (fun _ => true) d_empty
    st_empty hnv⟩

theorem process_pointer_seen_eq (d : Drawing) (iz : Bool) (e : Entity)
    (st : AState) (tp : String) (h : tp ∈ st.undefined_targets) :
    process_pointer d iz e st tp = st := by
  unfold process_pointer
  rw [if_pos h]
  split
  · rfl
  · split <;> rfl

theorem process_pointer_add (d : Drawing) (e : Entity) (st : AState)
    (t : String) (hmiss : t ∉ entitydb_keys d) (ht0 : t ≠ "0")
    (hun : t ∉ st.undefined_targets) :
    process_pointer d false e st t
      = ⟨st.errors ++ [⟨Error.POINTER_TARGET_NOT_EXISTS, ptr_message t,
          some e, none⟩], t :: st.undefined_targets⟩ := by
  unfold process_pointer
  rw [if_neg hmiss, if_neg (fun hh => ht0 hh.1), if_neg hun]

theorem diags_for_target_append_rec (t : String) (l : List ErrorEntry)
    (e : Entity) :
    diags_for_target t (l ++ [⟨Error.POINTER_TARGET_NOT_EXISTS,
        ptr_message t, some e, none⟩])
      = diags_for_target t l ++ [⟨Error.POINTER_TARGET_NOT_EXISTS,
          ptr_message t, some e, none⟩] := by
  unfold diags_for_target
  rw [List.filter_append]
  simp

theorem diags_append_of_codes {L : List ErrorEntry} (t : String)
    (l : List ErrorEntry)
    (hc : ∀ r ∈ L, r.code ≠ Error.POINTER_TARGET_NOT_EXISTS) :
    diags_for_target t (l ++ L) = diags_for_target t l := by
  refine filter_append_right_nil _ fun r hr => ?_
  cases hb : (r.code == Error.POINTER_TARGET_NOT_EXISTS) with
  | false => simp [hb]
  | true => exact absurd (eq_of_beq hb) (hc r hr)

theorem foldl_pp_seen (d : Drawing) (iz : Bool) (e : Entity) (t : String) :
    ∀ (ps : List String) (st : AState), t ∈ st.undefined_targets →
      diags_for_target t ((ps.foldl (process_pointer d iz e) st).errors)
          = diags_for_target t st.errors
      ∧ t ∈ (ps.foldl (process_pointer d iz e) st).undefined_targets := by
  intro ps
  induction ps with
  | nil => intro st h; exact ⟨rfl, h⟩
  | cons tp ps ih =>
    intro st h
    rw [List.foldl_cons]
    by_cases htp : tp = t
    · subst htp
      rw [process_pointer_seen_eq d iz e st tp h]
      exact ih st h
    · have hne := process_pointer_ne_target d iz e st tp t htp
      obtain ⟨hd, hm⟩ := ih (process_pointer d iz e st tp) (hne.2.mpr h)
      exact ⟨by rw [hd, hne.1], hm⟩

theorem foldl_pp_unseen_absent (d : Drawing) (iz : Bool) (e : Entity)
    (t : String) :
    ∀ (ps : List String) (st : AState), t ∉ st.undefined_targets → t ∉ ps →
      diags_for_target t ((ps.foldl (process_pointer d iz e) st).errors)
          = diags_for_target t st.errors
      ∧ t ∉ (ps.foldl (process_pointer d iz e) st).undefined_targets := by
  intro ps
  induction ps with
  | nil => intro st h _; exact ⟨rfl, h⟩
  | cons tp ps ih =>
    intro st h hps
    have htp : tp ≠ t := fun hh => hps (by simp [hh])
    have hts : t ∉ ps := fun hh => hps (by simp [hh])
    rw [List.foldl_cons]
    have hne := process_pointer_ne_target d iz e st tp t htp
    obtain ⟨hd, hm⟩ := ih (process_pointer d iz e st tp)
      (fun hmem => h (hne.2.mp hmem)) hts
    exact ⟨by rw [hd, hne.1], hm⟩

theorem foldl_pp_unseen_present (d : Drawing) (e : Entity) (t : String)
    (hmiss : t ∉ entitydb_keys d) (ht0 : t ≠ "0") :
    ∀ (ps : List String) (st : AState), t ∉ st.undefined_targets → t ∈ ps →
      diags_for_target t ((ps.foldl (process_pointer d false e) st).errors)
          = diags_for_target t st.errors
            ++ [⟨Error.POINTER_TARGET_NOT_EXISTS, ptr_message t, some e, none⟩]
      ∧ t ∈ (ps.foldl (process_pointer d false e) st).undefined_targets := by
  intro ps
  induction ps with
  | nil => intro st _ hmem; exact absurd hmem (by simp)
  | cons tp ps ih =>
    intro st h hmem
    rw [List.foldl_cons]
    by_cases htp : tp = t
    · subst htp
      rw [process_pointer_add d e st tp hmiss ht0 h]
      obtain ⟨hd, hm⟩ := foldl_pp_seen d false e tp ps
        ⟨st.errors ++ [⟨Error.POINTER_TARGET_NOT_EXISTS, ptr_message tp,
          some e, none⟩], tp :: st.undefined_targets⟩ (by simp)
      refine ⟨?_, hm⟩
      rw [hd]
      exact diags_for_target_append_rec tp st.errors e
    · have htps : t ∈ ps := by
        rcases List.mem_cons.mp hmem with hh | hh
        · exact absurd hh.symm htp
        · exact hh
      have hne := process_pointer_ne_target d false e st tp t htp
      obtain ⟨hd, hm⟩ := ih (process_pointer d false e st tp)
        (fun hmem2 => h (hne.2.mp hmem2)) htps
      exact ⟨by rw [hd, hne.1], hm⟩

/-- The first six rules of the per-entity audit, composed: they only append
records whose codes are their own (never the pointer code), and leave the
deduplication set untouched. -/
theorem entity_audit_prefix_shape (ivln : String → Bool) (d : Drawing)
    (st : AState) (e : Entity) :
    ∃ L, check_for_existing_owner d (check_for_valid_color_index
          (check_for_valid_layer_name ivln (check_if_dimension_style_exists d
            (check_if_text_style_exists d (check_if_linetype_exists d st e) e)
            e) e) e) e
        = { errors := st.errors ++ L, undefined_targets := st.undefined_targets }
      ∧ ∀ r ∈ L, r.code ≠ Error.POINTER_TARGET_NOT_EXISTS := by
  obtain ⟨L1, h1, c1⟩ := check_if_linetype_exists_shape d st e
  rw [h1]
  obtain ⟨L2, h2, c2⟩ := check_if_text_style_exists_shape d
    { errors := st.errors ++ L1, undefined_targets := st.undefined_targets } e
  rw [h2]
  obtain ⟨L3, h3, c3⟩ := check_if_dimension_style_exists_shape d _ e
  rw [h3]
  obtain ⟨L4, h4, c4⟩ := check_for_valid_layer_name_shape ivln _ e
  rw [h4]
  obtain ⟨L5, h5, c5⟩ := check_for_valid_color_index_shape _ e
  rw [h5]
  obtain ⟨L6, h6, c6⟩ := check_for_existing_owner_shape d _ e
  rw [h6]
  refine ⟨L1 ++ (L2 ++ (L3 ++ (L4 ++ (L5 ++ L6)))), ?_, ?_⟩
  · simp [List.append_assoc]
  · intro r hr
    simp only [List.mem_append] at hr
    rcases hr with h | h | h | h | h | h
    · rw [c1 r h]; intro hk; cases hk
    · rw [c2 r h]; intro hk; cases hk
    · rw [c3 r h]; intro hk; cases hk
    · rw [c4 r h]; intro hk; cases hk
    · rw [c5 r h]; intro hk; cases hk
    · rw [c6 r h]; intro hk; cases hk

theorem entity_audit_diags_seen (ipc : Nat → Bool) (ivln : String → Bool)
    (d : Drawing) (t : String) (st : AState) (e : Entity)
    (h : t ∈ st.undefined_targets) :
    diags_for_target t ((entity_audit ipc ivln d st e).errors)
        = diags_for_target t st.errors
    ∧ t ∈ (entity_audit ipc ivln d st e).undefined_targets := by
  unfold entity_audit
  dsimp only
  obtain ⟨L, hL, hc⟩ := entity_audit_prefix_shape ivln d st e
  rw [hL]
  unfold check_pointer_target_exists
  obtain ⟨hd, hm⟩ := foldl_pp_seen d false e t (get_pointers ipc e.tags)
    { errors := st.errors ++ L, undefined_targets := st.undefined_targets } h
  refine ⟨?_, hm⟩
  rw [hd]
  exact diags_append_of_codes t st.errors hc

theorem entity_audit_diags_unseen_absent (ipc : Nat → Bool)
    (ivln : String → Bool) (d : Drawing) (t : String) (st : AState)
    (e : Entity) (h : t ∉ st.undefined_targets)
    (hp : t ∉ get_pointers ipc e.tags) :
    diags_for_target t ((entity_audit ipc ivln d st e).errors)
        = diags_for_target t st.errors
    ∧ t ∉ (entity_audit ipc ivln d st e).undefined_targets := by
  unfold entity_audit
  dsimp only
  obtain ⟨L, hL, hc⟩ := entity_audit_prefix_shape ivln d st e
  rw [hL]
  unfold check_pointer_target_exists
  obtain ⟨hd, hm⟩ := foldl_pp_unseen_absent d false e t
    (get_pointers ipc e.tags)
    { errors := st.errors ++ L, undefined_targets := st.undefined_targets } h hp
  refine ⟨?_, hm⟩
  rw [hd]
  exact diags_append_of_codes t st.errors hc

theorem entity_audit_diags_unseen_present (ipc : Nat → Bool)
    (ivln : String → Bool) (d : Drawing) (t : String)
    (hmiss : t ∉ entitydb_keys d) (ht0 : t ≠ "0") (st : AState) (e : Entity)
    (h : t ∉ st.undefined_targets) (hp : t ∈ get_pointers ipc e.tags) :
    diags_for_target t ((entity_audit ipc ivln d st e).errors)
        = diags_for_target t st.errors
          ++ [⟨Error.POINTER_TARGET_NOT_EXISTS, ptr_message t, some e, none⟩]
    ∧ t ∈ (entity_audit ipc ivln d st e).undefined_targets := by
  unfold entity_audit
  dsimp only
  obtain ⟨L, hL, hc⟩ := entity_audit_prefix_shape ivln d st e
  rw [hL]
  unfold check_pointer_target_exists
  obtain ⟨hd, hm⟩ := foldl_pp_unseen_present d e t hmiss ht0
    (get_pointers ipc e.tags)
    { errors := st.errors ++ L, undefined_targets := st.undefined_targets } h hp
  refine ⟨?_, hm⟩
  rw [hd, diags_append_of_codes t st.errors hc]

theorem audit_list_seen (ipc : Nat → Bool) (ivln : String → Bool)
    (d : Drawing) (t : String) :
    ∀ (es : List Entity) (st : AState), t ∈ st.undefined_targets →
      diags_for_target t ((es.foldl (entity_audit ipc ivln d) st).errors)
        = diags_for_target t st.errors := by
  intro es
  induction es with
  | nil => intro st _; rfl
  | cons e es ih =>
    intro st h
    rw [List.foldl_cons]
    obtain ⟨hd, hm⟩ := entity_audit_diags_seen ipc ivln d t st e h
    rw [ih (entity_audit ipc ivln d st e) hm, hd]

theorem audit_list_first (ipc : Nat → Bool) (ivln : String → Bool)
    (d : Drawing) (t : String) (hmiss : t ∉ entitydb_keys d)
    (ht0 : t ≠ "0") :
    ∀ (es : List Entity) (st : AState), t ∉ st.undefined_targets →
      ∀ e1, es.find? (fun e => decide (t ∈ get_pointers ipc e.tags))
          = some e1 →
        diags_for_target t ((es.foldl (entity_audit ipc ivln d) st).errors)
          = diags_for_target t st.errors
            ++ [⟨Error.POINTER_TARGET_NOT_EXISTS, ptr_message t,
                some e1, none⟩] := by
  intro es
  induction es with
  | nil => intro st _ e1 hfind; simp at hfind
  | cons e es ih =>
    intro st h e1 hfind
    rw [List.foldl_cons]
    by_cases hp : t ∈ get_pointers ipc e.tags
    · have hfe : (e :: es).find?
          (fun e => decide (t ∈ get_pointers ipc e.tags)) = some e :=
        List.find?_cons_of_pos _ (by simp [hp])
      have he1 : e1 = e := by
        rw [hfe] at hfind
        exact (Option.some.inj hfind).symm
      subst he1
      obtain ⟨hd, hm⟩ := entity_audit_diags_unseen_present ipc ivln d t hmiss
        ht0 st e1 h hp
      rw [audit_list_seen ipc ivln d t es (entity_audit ipc ivln d st e1) hm,
        hd]
    · have hfe : (e :: es).find?
          (fun e => decide (t ∈ get_pointers ipc e.tags))
            = es.find? (fun e => decide (t ∈ get_pointers ipc e.tags)) :=
        List.find?_cons_of_neg _ (by simp [hp])
      rw [hfe] at hfind
      obtain ⟨hd, hm⟩ := entity_audit_diags_unseen_absent ipc ivln d t st e h
        hp
      rw [ih (entity_audit ipc ivln d st e) hm e1 hfind, hd]

/-- C1: one run over the database (the walk starts from the reset state),
where some entities carry pointer tags to the missing target `t`: the sink
ends with exactly one `POINTER_TARGET_NOT_EXISTS` diagnostic for `t`, no
matter how many entities reference `t`, and it references the entity
visited first in traversal order. -/
theorem pointer_target_dedup_per_run (ipc : Nat → Bool)
    (ivln : String → Bool) (d : Drawing) (a : AState) (t : String)
    (ht0 : t ≠ "0") (hmiss : t ∉ entitydb_keys d) (e1 : Entity)
    (hfirst : (d.entitydb.map Prod.snd).find?
        (fun e => decide (t ∈ get_pointers ipc e.tags)) = some e1) :
    diags_for_target t
        (check_database_entities ipc ivln d (reset a)).errors
      = [⟨Error.POINTER_TARGET_NOT_EXISTS, ptr_message t, some e1, none⟩] := by
  have heq : check_database_entities ipc ivln d (reset a)
      = (d.entitydb.map Prod.snd).foldl (entity_audit ipc ivln d) (reset a) := by
    unfold check_database_entities
    rw [List.foldl_map]
  rw [heq]
  rw [audit_list_first ipc ivln d t hmiss ht0 (d.entitydb.map Prod.snd)
    (reset a) (by simp [reset]) e1 hfirst]
  rfl

theorem pointer_target_dedup_per_run_witness :
    (("DEAD" : String) ≠ "0")
    ∧ ("DEAD" ∉ entitydb_keys d_dangling)
    ∧ ((d_dangling.entitydb.map Prod.snd).find?
        (fun e => decide ("DEAD" ∈ get_pointers ipc330 e.tags))
          = some (ent_ptr "10" "DEAD"))
    ∧ diags_for_target "DEAD"
        (check_database_entities ipc330 (fun _ => true) d_dangling
          (reset st_empty)).errors
      = [⟨Error.POINTER_TARGET_NOT_EXISTS, ptr_message "DEAD",
          some (ent_ptr "10" "DEAD"), none⟩] :=
  ⟨by decide, by decide, by decide,
   pointer_target_dedup_per_run ipc330 (fun _ => true) d_dangling st_empty
     "DEAD" (by decide) (by decide) (ent_ptr "10" "DEAD") (by decide)⟩

end Audit
